/-
Verification of the quotio credential-lifecycle core (quotio-cli).

Shallow embedding of:
  credential_store.py  (CredentialStore.save_auth_file / load_auth_file)
  token_manager.py     (TokenManager._should_refresh, _refresh_token,
                        _refresh_kiro_idc endpoint construction,
                        _load_and_complement_credentials, refresh_all_tokens)
  auth_server.py       (AuthServer._generate_pkce, _aws_poll_token,
                        _run_callback_server / _run_aws_callback_server loop)

Conventions of the embedding:
  * Machine time is modelled as UTC epoch seconds (Int); `datetime.utcnow()`
    is an explicit `now` parameter.
  * JSON string fields are `Option String` (`none` = key absent).
  * Python truthiness of an optional string is `truthy` below
    (absent or empty string is falsy).
  * Network calls are oracles: the parsed response a call would produce is
    passed in (`none` = the call raised / returned None after its own
    exception handling).
-/
import Mathlib

namespace Quotio

/-! ### Credential store (credential_store.py lines 19-41)

The filesystem is an association list from file name to stored JSON
document; `json.dump` / `json.load` round-tripping of a dict is assumed,
so files hold documents directly.  A save prepends its entry; a load
returns the most recent entry for the computed file name. -/

/-- `identifier.replace("@", "_").replace(".", "_")` — both patterns are
single characters, so the two chained replaces are one character map. -/
def safeId (identifier : String) : String :=
  ⟨identifier.data.map (fun c => if c = '@' then '_' else if c = '.' then '_' else c)⟩

/-- `f"{provider}-{safe_id}.json"` (credential_store.py lines 23, 34). -/
def authFileName (provider identifier : String) : String :=
  provider ++ "-" ++ safeId identifier ++ ".json"

structure FileStore (α : Type) where
  files : List (String × α)
deriving DecidableEq

/-- `CredentialStore.save_auth_file`: writes the document at the computed
file name, overwriting any previous content at that name. -/
def saveAuthFile {α : Type} (s : FileStore α) (provider identifier : String) (d : α) :
    FileStore α :=
  ⟨(authFileName provider identifier, d) :: s.files⟩

/-- `CredentialStore.load_auth_file`: returns the document at the computed
file name, or `none` when no such file exists. -/
def loadAuthFile {α : Type} (s : FileStore α) (provider identifier : String) : Option α :=
  (s.files.find? (fun kv => kv.1 = authFileName provider identifier)).map (fun kv => kv.2)

/-! ### Staleness check (token_manager.py lines 62-98) -/

/-- The `expires_at` field of a credential document, classified by how
`_should_refresh` can observe it:
  * `absent`        — key missing or value falsy (`None`, empty string);
  * `strParsable t` — a truthy string that `datetime.fromisoformat`
                      (after stripping a trailing `Z`) parses to the UTC
                      instant `t` (epoch seconds);
  * `strUnparsable` — a truthy string that `fromisoformat` rejects
                      (raises, caught by the `except` branch);
  * `nonString`     — a truthy non-string JSON value (fails the
                      `isinstance(expires_at, str)` test). -/
inductive ExpField
  | absent
  | strParsable (t : Int)
  | strUnparsable
  | nonString
deriving DecidableEq

/-- The reason string returned by `_should_refresh`, abstracted. -/
inductive RefreshReason
  | noExpiry
  | unparsableType
  | parseError
  | expired (overdue : Int)
  | expiringSoon (remaining : Int)
  | fresh (remaining : Int)
deriving DecidableEq

/-- `REFRESH_BUFFER_SECONDS = 5 * 60` (token_manager.py line 25). -/
def REFRESH_BUFFER_SECONDS : Int := 5 * 60

/-- `TokenManager._should_refresh` (token_manager.py lines 62-98) as a pure
function of the `expires_at` field and the current UTC instant. -/
def shouldRefresh (e : ExpField) (now : Int) : Bool × RefreshReason :=
  match e with
  | .absent => (false, .noExpiry)
  | .nonString => (false, .unparsableType)
  | .strUnparsable => (true, .parseError)
  | .strParsable t =>
    let remaining : Int := t - now
    if remaining ≤ 0 then (true, .expired (-remaining))
    else if remaining < REFRESH_BUFFER_SECONDS then (true, .expiringSoon remaining)
    else (false, .fresh remaining)

/-! ### Token manager data model (token_manager.py) -/

/-- A credential document as `refresh_all_tokens` sees it (a JSON dict
loaded by `CredentialStore.list_auth_files`).  `filename` / `filepath`
model the store-internal `_filename` / `_filepath` bookkeeping fields.
`last_refresh` is the instant recorded at line 136 (the written ISO
string is represented by the instant it denotes). -/
structure TokenDoc where
  auth_method : Option String := none
  refresh_token : Option String := none
  access_token : Option String := none
  client_id : Option String := none
  client_secret : Option String := none
  region : Option String := none
  expires_at : ExpField := .absent
  email : Option String := none
  filename : Option String := none
  filepath : Option String := none
  last_refresh : Option Int := none
deriving DecidableEq

/-- Python truthiness of an optional string field (`if not x`): absent or
empty is falsy. -/
def truthy : Option String → Bool
  | none => false
  | some s => if s = "" then false else true

/-- `s.replace('.json', '')` — left-to-right removal of every occurrence
of `.json` (in practice the file-name extension). -/
def replaceJson : List Char → List Char
  | '.' :: 'j' :: 's' :: 'o' :: 'n' :: rest => replaceJson rest
  | c :: rest => c :: replaceJson rest
  | [] => []

/-- `f.get('email') or f.get('_filename', '').replace('.json', '')`
(token_manager.py lines 48, 53, 240). -/
def docIdentifier (d : TokenDoc) : String :=
  match d.email with
  | some e => if e = "" then ⟨replaceJson (d.filename.getD "").data⟩ else e
  | none => ⟨replaceJson (d.filename.getD "").data⟩

/-- The parsed JSON body a refresh endpoint returned, restricted to the
fields `_refresh_token` reads.  A response dict with none of these keys
is the empty (falsy) dict. -/
structure RefreshResp where
  accessToken : Option String := none
  refreshToken : Option String := none
  expiresIn : Option Int := none
deriving DecidableEq

/-- Outcome of one `_refresh_token` call:
  * `exn`         — an exception escaped (the `new_token_data['accessToken']`
                    lookup raised `KeyError`); nothing was mutated or saved;
  * `done none`   — returned `False`; nothing was saved;
  * `done (some d)` — returned `True` after saving document `d` under
                    `("kiro", identifier)`. -/
inductive RefreshOutcome
  | exn
  | done (saved : Option TokenDoc)
deriving DecidableEq

/-- `KIRO_SOCIAL_REFRESH_URL` (token_manager.py line 21). -/
def KIRO_SOCIAL_REFRESH_URL : String :=
  "https://prod.us-east-1.auth.desktop.kiro.dev/refreshToken"

/-- The endpoint built by `_refresh_kiro_idc` (token_manager.py line 180):
`f"https://oidc.{region}.amazonaws.com/token"`. -/
def idcEndpoint (region : String) : String :=
  "https://oidc." ++ region ++ ".amazonaws.com/token"

/-- The URL the refresh attempt for a document POSTs to, `none` when no
request is made (no refresh token, missing IdC client credentials, or an
unknown auth method).  Mirrors the dispatch of `_refresh_token`
(token_manager.py lines 105-124) together with line 159 and line 180. -/
def refreshRequestUrl (d : TokenDoc) : Option String :=
  if truthy d.refresh_token = false then none
  else if d.auth_method.getD "IdC" = "Social" then some KIRO_SOCIAL_REFRESH_URL
  else if d.auth_method.getD "IdC" = "IdC" then
    (if truthy d.client_id = true ∧ truthy d.client_secret = true then
      some (idcEndpoint (d.region.getD "us-east-1"))
    else none)
  else none

/-- `TokenManager._refresh_token` (token_manager.py lines 100-147) with the
network call an oracle `resp` (`none` = the provider-specific helper
returned `None` after a network or parse failure).  `identifier` is the
key the caller computed; the save key is reproduced by the batch model. -/
def refreshTokenFn (d : TokenDoc) (_identifier : String) (resp : Option RefreshResp)
    (now : Int) : RefreshOutcome :=
  if truthy d.refresh_token = false then .done none
  else
    match (if d.auth_method.getD "IdC" = "Social" then resp
           else if d.auth_method.getD "IdC" = "IdC" then
             (if truthy d.client_id = true ∧ truthy d.client_secret = true then resp
              else none)
           else none) with
    | none => .done none
    | some r =>
      -- `if new_token_data:` — an empty response dict is falsy
      if r.accessToken = none ∧ r.refreshToken = none ∧ r.expiresIn = none then .done none
      else
        match r.accessToken with
        | none => .exn
        | some a =>
          .done (some { d with
            access_token := some a,
            refresh_token := (match r.refreshToken with
                              | some rt => some rt
                              | none => d.refresh_token),
            expires_at := ExpField.strParsable (now + r.expiresIn.getD 3600),
            last_refresh := some now,
            filename := none,
            filepath := none })

/-- A write through `CredentialStore.save_auth_file`. -/
structure SW where
  provider : String
  identifier : String
  doc : TokenDoc
deriving DecidableEq

/-- `TokenManager._load_and_complement_credentials` (token_manager.py lines
214-244).  `sso` is the pair `_load_kiro_device_registration()` would
return from the external AWS SSO cache.  Result: the (possibly backfilled)
document and the store writes performed, in order. -/
def complement (sso : Option String × Option String) (d : TokenDoc) :
    TokenDoc × List SW :=
  if d.auth_method.getD "IdC" ≠ "IdC" then (d, [])
  else if truthy d.client_id = true ∧ truthy d.client_secret = true then (d, [])
  else if truthy sso.1 = true ∧ truthy sso.2 = true then
    let d' : TokenDoc := { d with client_id := sso.1, client_secret := sso.2 }
    if docIdentifier d' ≠ "" then (d', [⟨"kiro", docIdentifier d', d'⟩]) else (d', [])
  else (d, [])

/-- The staleness check and guarded refresh attempt performed for one
(already complemented) document inside the loop of `refresh_all_tokens`
(token_manager.py lines 46-58): the store writes made, and the increment
to `refreshed_count`.  An exception from `_refresh_token` is caught by the
`except` clause (line 57) and contributes nothing. -/
def refreshStep (d₁ : TokenDoc) (resp : Option RefreshResp) (now : Int) :
    List SW × Nat :=
  if (shouldRefresh d₁.expires_at now).1 then
    match refreshTokenFn d₁ (docIdentifier d₁) resp now with
    | .exn => ([], 0)
    | .done none => ([], 0)
    | .done (some d₂) => ([⟨"kiro", docIdentifier d₁, d₂⟩], 1)
  else ([], 0)

/-- One iteration of the `refresh_all_tokens` loop over a listed file:
complement, then staleness check and guarded refresh. -/
def processOne (sso : Option String × Option String) (now : Int)
    (x : TokenDoc × Option RefreshResp) : List SW × Nat :=
  let c := complement sso x.1
  let p := refreshStep c.1 x.2 now
  (c.2 ++ p.1, p.2)

/-- `TokenManager.refresh_all_tokens` (token_manager.py lines 30-60) over
the listed provider files, each paired with the oracle response its
refresh attempt would receive: all store writes in order, and the
returned `refreshed_count`. -/
def refreshAll (sso : Option String × Option String) (now : Int) :
    List (TokenDoc × Option RefreshResp) → List SW × Nat
  | [] => ([], 0)
  | x :: rest =>
    let p := processOne sso now x
    let r := refreshAll sso now rest
    (p.1 ++ r.1, p.2 + r.2)

/-! ### PKCE generation (auth_server.py lines 89-103)

Bytes are `Nat` values `< 256`.  `hashlib.sha256` is an external library
primitive, modelled as an explicit function parameter `sha256`; everything
the repository's code does around it (ASCII encoding, URL-safe base64,
padding strip, verifier generation) is embedded concretely. -/

/-- The URL-safe base64 alphabet used by `base64.urlsafe_b64encode` and by
`secrets.token_urlsafe`. -/
def urlSafeB64Chars : List Char :=
  "ABCDEFGHIJKLMNOPQRSTUVWXYZabcdefghijklmnopqrstuvwxyz0123456789-_".data

def b64Char (n : Nat) : Char := urlSafeB64Chars.getD n 'A'

/-- `base64.urlsafe_b64encode` on a byte list, with `=` padding. -/
def base64urlEncode : List Nat → List Char
  | [] => []
  | [b1] => [b64Char (b1 / 4), b64Char (b1 % 4 * 16), '=', '=']
  | [b1, b2] => [b64Char (b1 / 4), b64Char (b1 % 4 * 16 + b2 / 16),
                 b64Char (b2 % 16 * 4), '=']
  | b1 :: b2 :: b3 :: rest =>
    b64Char (b1 / 4) :: b64Char (b1 % 4 * 16 + b2 / 16) ::
    b64Char (b2 % 16 * 4 + b3 / 64) :: b64Char (b3 % 64) :: base64urlEncode rest

/-- `.rstrip('=')`. -/
def stripTrailingEq (cs : List Char) : List Char :=
  (cs.reverse.dropWhile (fun c => c = '=')).reverse

/-- `verifier.encode('ascii')` — the verifier is URL-safe ASCII, so bytes
are the code points. -/
def asciiBytes (s : String) : List Nat := s.data.map Char.toNat

/-- `secrets.token_urlsafe` on the given random bytes:
`base64.urlsafe_b64encode(bytes)` with padding stripped. -/
def tokenUrlsafe (bytes : List Nat) : String :=
  ⟨stripTrailingEq (base64urlEncode bytes)⟩

/-- The `code_challenge` computed at auth_server.py lines 99-101:
`base64.urlsafe_b64encode(sha256(verifier.encode('ascii')).digest())
 .decode('ascii').rstrip('=')`. -/
def pkceChallenge (sha256 : List Nat → List Nat) (verifier : String) : String :=
  ⟨stripTrailingEq (base64urlEncode (sha256 (asciiBytes verifier)))⟩

/-- `AuthServer._generate_pkce` (auth_server.py lines 89-103):
`code_verifier = secrets.token_urlsafe(32)` applied to the 32 random bytes
drawn, then the challenge of that verifier. -/
def generatePkce (sha256 : List Nat → List Nat) (randomBytes : List Nat) :
    String × String :=
  let v := tokenUrlsafe randomBytes
  (v, pkceChallenge sha256 v)

/-! ### Device-code polling (auth_server.py lines 534-567) -/

/-- What one poll of the token endpoint produces, as `_aws_poll_token`
classifies it: a 2xx body (success), an HTTP error body containing
`authorization_pending`, one containing `slow_down`, or any other error. -/
inductive PollResp
  | success
  | pending
  | slowDown
  | otherError
deriving DecidableEq

inductive PollOutcome
  | granted
  | failed
  | timedOut
deriving DecidableEq

/-- `AuthServer._aws_poll_token`'s `for _ in range(60)` loop.  `script idx`
is the response to the `idx`-th poll call (0-based).  Returns the terminal
outcome and the list of `time.sleep` durations, one per loop iteration
(the sleep precedes the call; `slow_down` does `interval += 5` after the
call, so it affects every later sleep). -/
def pollAux (script : Nat → PollResp) : Nat → Nat → Nat → PollOutcome × List Nat
  | 0, _, _ => (.timedOut, [])
  | fuel + 1, interval, idx =>
    match script idx with
    | .success => (.granted, [interval])
    | .otherError => (.failed, [interval])
    | .pending =>
      ((pollAux script fuel interval (idx + 1)).1,
       interval :: (pollAux script fuel interval (idx + 1)).2)
    | .slowDown =>
      ((pollAux script fuel (interval + 5) (idx + 1)).1,
       interval :: (pollAux script fuel (interval + 5) (idx + 1)).2)

/-- The poll loop entry point: at most 60 attempts, starting at the
provider-supplied interval. -/
def pollToken (script : Nat → PollResp) (interval : Nat) : PollOutcome × List Nat :=
  pollAux script 60 interval 0

/-- Number of `slow_down` responses among the `k` poll calls
`idx, idx+1, …, idx+k-1`. -/
def slowCount (script : Nat → PollResp) : Nat → Nat → Nat
  | _, 0 => 0
  | idx, k + 1 =>
    (if script idx = .slowDown then 1 else 0) + slowCount script (idx + 1) k

/-! ### Local callback listener hosting loop (auth_server.py lines 478-483
and 635-640)

```
httpd.timeout = 300  # 5 分钟超时
self._auth_event.clear()
while not self._auth_event.is_set():
    httpd.handle_request()
```

Each `handle_request` call either serves one request within the 300 s
window (whose handler may set `_auth_event`) or returns after the timeout
having served nothing (`socketserver`'s default `handle_timeout` is a
no-op).  The loop re-checks the event between calls.  A run of the loop is
driven by the scripted sequence of `handle_request` outcomes. -/

inductive IterOutcome
  | request (setsEvent : Bool)
  | timedOut
deriving DecidableEq

/-- Number of `handle_request` iterations the hosting loop performs over
the scripted outcomes before its `while not event.is_set()` check stops
it; if the script is exhausted the loop is still running and would block
in a further `handle_request`. -/
def serveIters : List IterOutcome → Nat
  | [] => 0
  | .request true :: _ => 1
  | .request false :: rest => 1 + serveIters rest
  | .timedOut :: rest => 1 + serveIters rest

/-- Whether the hosting loop has terminated by the end of the scripted
outcomes (only a request whose handler sets the completion event ever
stops it). -/
def loopStopped : List IterOutcome → Bool
  | [] => false
  | .request true :: _ => true
  | .request false :: rest => loopStopped rest
  | .timedOut :: rest => loopStopped rest

/-! ### Concrete instances used by individual witnesses -/

/-- Refreshable and due: Social credential expiring 100 s after `now = 1000`. -/
def dDueC4 : TokenDoc := {
  auth_method := some "Social"
  refresh_token := some "rt1"
  access_token := some "old"
  expires_at := .strParsable 1100
  email := some "due@x" }

/-- Refreshable and fresh: Social credential expiring far in the future. -/
def dFreshC4 : TokenDoc := {
  auth_method := some "Social"
  refresh_token := some "rt2"
  expires_at := .strParsable 1000000
  email := some "fresh@x" }

/-- Non-refreshable: no refresh token, although already expired. -/
def dNoRTC4 : TokenDoc := {
  auth_method := some "Social"
  expires_at := .strParsable 0
  email := some "nort@x" }

/-- A well-formed refresh-endpoint response. -/
def respOkC4 : RefreshResp := {
  accessToken := some "newAT"
  refreshToken := some "newRT"
  expiresIn := some 3600 }

/-- The C4 batch: one due, one fresh, one without a refresh token, each
with a working endpoint. -/
def scenarioC4 : List (TokenDoc × Option RefreshResp) :=
  [(dDueC4, some respOkC4), (dFreshC4, some respOkC4), (dNoRTC4, some respOkC4)]

/-- IdC credential in region ap-southeast-1 with everything a refresh needs. -/
def dIdcC2 : TokenDoc := {
  auth_method := some "IdC"
  refresh_token := some "rt"
  client_id := some "c"
  client_secret := some "s"
  region := some "ap-southeast-1" }

/-- IdC credential (default auth method) missing its client credentials. -/
def dIdcMissC : TokenDoc := {
  refresh_token := some "rt"
  email := some "e@x"
  expires_at := .strParsable 0 }

/-- Scripted endpoint for the C5 witness: pending three times, then grant. -/
def script5a : Nat → PollResp := fun k => if k < 3 then .pending else .success

/-- Scripted endpoint for the C5 witness: slow down once, then grant. -/
def script5b : Nat → PollResp := fun k => if k = 0 then .slowDown else .success

/-! ### Helper lemmas -/

theorem pollAux_length_le (script : Nat → PollResp) :
    ∀ fuel interval idx, (pollAux script fuel interval idx).2.length ≤ fuel := by
  intro fuel
  induction fuel with
  | zero => intro interval idx; simp [pollAux]
  | succ fuel ih =>
    intro interval idx
    simp only [pollAux]
    cases hscript : script idx
    · simp
    · simpa using ih interval (idx + 1)
    · simpa using ih (interval + 5) (idx + 1)
    · simp

theorem pollAux_wait (script : Nat → PollResp) :
    ∀ fuel interval idx k w,
      (pollAux script fuel interval idx).2[k]? = some w →
      w = interval + 5 * slowCount script idx k := by
  intro fuel
  induction fuel with
  | zero => intro interval idx k w h; simp [pollAux] at h
  | succ fuel ih =>
    intro interval idx k w h
    simp only [pollAux] at h
    cases hscript : script idx <;> rw [hscript] at h
    · cases k with
      | zero => simp at h; simp [slowCount, h]
      | succ k => simp at h
    · cases k with
      | zero => simp at h; simp [slowCount, h]
      | succ k =>
        simp only [List.getElem?_cons_succ] at h
        have hw := ih interval (idx + 1) k w h
        simp [slowCount, hscript, hw]
    · cases k with
      | zero => simp at h; simp [slowCount, h]
      | succ k =>
        simp only [List.getElem?_cons_succ] at h
        have hw := ih (interval + 5) (idx + 1) k w h
        simp [slowCount, hscript] at hw ⊢
        omega
    · cases k with
      | zero => simp at h; simp [slowCount, h]
      | succ k => simp at h

theorem pollAux_pending_success (script : Nat → PollResp) :
    ∀ N fuel interval idx, N < fuel →
      (∀ k, k < N → script (idx + k) = .pending) →
      script (idx + N) = .success →
      pollAux script fuel interval idx = (.granted, List.replicate (N + 1) interval) := by
  intro N
  induction N with
  | zero =>
    intro fuel interval idx hf hp hs
    cases fuel with
    | zero => omega
    | succ fuel =>
      have h0 : script idx = .success := by simpa using hs
      simp [pollAux, h0, List.replicate]
  | succ N ih =>
    intro fuel interval idx hf hp hs
    cases fuel with
    | zero => omega
    | succ fuel =>
      have h0 : script idx = .pending := by simpa using hp 0 (Nat.succ_pos N)
      have hrec := ih fuel interval (idx + 1) (by omega)
        (fun k hk => by
          have hpk := hp (k + 1) (by omega)
          rwa [show idx + (k + 1) = idx + 1 + k by omega] at hpk)
        (by rwa [show idx + (N + 1) = idx + 1 + N by omega] at hs)
      simp [pollAux, h0, hrec, List.replicate_succ]

theorem pollAux_error_first (script : Nat → PollResp) (interval idx fuel : Nat)
    (h : script idx = .otherError) (hf : 0 < fuel) :
    pollAux script fuel interval idx = (.failed, [interval]) := by
  cases fuel with
  | zero => omega
  | succ fuel => simp [pollAux, h]

theorem pollAux_all_pending (script : Nat → PollResp) (hp : ∀ k, script k = .pending) :
    ∀ fuel interval idx,
      pollAux script fuel interval idx = (.timedOut, List.replicate fuel interval) := by
  intro fuel
  induction fuel with
  | zero => intro interval idx; simp [pollAux]
  | succ fuel ih => intro interval idx; simp [pollAux, hp idx, ih, List.replicate_succ]

theorem b64Char_mem : ∀ n < 64, b64Char n ∈ urlSafeB64Chars := by decide

theorem mem_b64_ne_eq : ∀ c ∈ urlSafeB64Chars, c ≠ '=' := by decide

theorem base64urlEncode_length : ∀ bs : List Nat,
    (base64urlEncode bs).length = 4 * ((bs.length + 2) / 3)
  | [] => by simp [base64urlEncode]
  | [_] => by simp [base64urlEncode]
  | [_, _] => by simp [base64urlEncode]
  | _ :: _ :: _ :: rest => by
    have ih := base64urlEncode_length rest
    simp only [base64urlEncode, List.length_cons, ih]
    omega

theorem base64urlEncode_chars : ∀ bs : List Nat, (∀ b ∈ bs, b < 256) →
    ∀ c ∈ base64urlEncode bs, c ∈ urlSafeB64Chars ∨ c = '='
  | [], _ => by simp [base64urlEncode]
  | [b1], h => by
    have hb1 : b1 < 256 := h b1 (by simp)
    intro c hc
    simp only [base64urlEncode, List.mem_cons, List.not_mem_nil, or_false] at hc
    rcases hc with rfl | rfl | rfl | rfl
    · exact Or.inl (b64Char_mem _ (by omega))
    · exact Or.inl (b64Char_mem _ (by omega))
    · exact Or.inr rfl
    · exact Or.inr rfl
  | [b1, b2], h => by
    have hb1 : b1 < 256 := h b1 (by simp)
    have hb2 : b2 < 256 := h b2 (by simp)
    intro c hc
    simp only [base64urlEncode, List.mem_cons, List.not_mem_nil, or_false] at hc
    rcases hc with rfl | rfl | rfl | rfl
    · exact Or.inl (b64Char_mem _ (by omega))
    · exact Or.inl (b64Char_mem _ (by omega))
    · exact Or.inl (b64Char_mem _ (by omega))
    · exact Or.inr rfl
  | b1 :: b2 :: b3 :: rest, h => by
    have hb1 : b1 < 256 := h b1 (by simp)
    have hb2 : b2 < 256 := h b2 (by simp)
    have hb3 : b3 < 256 := h b3 (by simp)
    have ih := base64urlEncode_chars rest (fun b hb => h b (by simp [hb]))
    intro c hc
    simp only [base64urlEncode, List.mem_cons] at hc
    rcases hc with rfl | rfl | rfl | rfl | hc
    · exact Or.inl (b64Char_mem _ (by omega))
    · exact Or.inl (b64Char_mem _ (by omega))
    · exact Or.inl (b64Char_mem _ (by omega))
    · exact Or.inl (b64Char_mem _ (by omega))
    · exact ih c hc

theorem dropWhile_append_of_ne_nil {p : Char → Bool} :
    ∀ a b : List Char, List.dropWhile p a ≠ [] →
      List.dropWhile p (a ++ b) = List.dropWhile p a ++ b := by
  intro a b h
  induction a with
  | nil => simp at h
  | cons x xs ih =>
    simp only [List.cons_append, List.dropWhile_cons] at h ⊢
    cases hp : p x with
    | true => simp only [hp] at h ⊢; simpa using ih (by simpa using h)
    | false => simp [hp]

theorem stripTrailingEq_append (l₁ l₂ : List Char) (h : stripTrailingEq l₂ ≠ []) :
    stripTrailingEq (l₁ ++ l₂) = l₁ ++ stripTrailingEq l₂ := by
  unfold stripTrailingEq at h ⊢
  have h2 : List.dropWhile (fun c => decide (c = '=')) l₂.reverse ≠ [] := by
    intro hnil
    exact h (by rw [hnil]; rfl)
  rw [List.reverse_append, dropWhile_append_of_ne_nil _ _ h2, List.reverse_append,
    List.reverse_reverse]

theorem strip_encode_two : ∀ bs : List Nat, bs.length % 3 = 2 → (∀ b ∈ bs, b < 256) →
    (stripTrailingEq (base64urlEncode bs)).length + 1 = (base64urlEncode bs).length
    ∧ ∀ c ∈ stripTrailingEq (base64urlEncode bs), c ∈ urlSafeB64Chars
  | [], hm, _ => by simp at hm
  | [_], hm, _ => by simp at hm
  | [b1, b2], _, h => by
    have hb1 : b1 < 256 := h b1 (by simp)
    have hb2 : b2 < 256 := h b2 (by simp)
    have hzmem : b64Char (b2 % 16 * 4) ∈ urlSafeB64Chars := b64Char_mem _ (by omega)
    have hz : ¬ b64Char (b2 % 16 * 4) = '=' := mem_b64_ne_eq _ hzmem
    constructor
    · simp [stripTrailingEq, base64urlEncode, List.dropWhile, hz]
    · intro c hc
      simp only [stripTrailingEq, base64urlEncode] at hc
      simp [List.dropWhile, hz] at hc
      rcases hc with rfl | rfl | rfl
      · exact b64Char_mem _ (by omega)
      · exact b64Char_mem _ (by omega)
      · exact b64Char_mem _ (by omega)
  | b1 :: b2 :: b3 :: rest, hm, h => by
    have hb1 : b1 < 256 := h b1 (by simp)
    have hb2 : b2 < 256 := h b2 (by simp)
    have hb3 : b3 < 256 := h b3 (by simp)
    have hmr : rest.length % 3 = 2 := by simp only [List.length_cons] at hm; omega
    have ih := strip_encode_two rest hmr (fun b hb => h b (by simp [hb]))
    have hlenr := base64urlEncode_length rest
    have ih1 := ih.1
    have hne : stripTrailingEq (base64urlEncode rest) ≠ [] := by
      intro hnil
      rw [hnil] at ih1
      simp at ih1
      omega
    have hsplit : base64urlEncode (b1 :: b2 :: b3 :: rest)
        = [b64Char (b1 / 4), b64Char (b1 % 4 * 16 + b2 / 16),
           b64Char (b2 % 16 * 4 + b3 / 64), b64Char (b3 % 64)] ++ base64urlEncode rest := by
      simp [base64urlEncode]
    rw [hsplit, stripTrailingEq_append _ _ hne]
    constructor
    · simp only [List.length_append, List.length_cons, List.length_nil]
      omega
    · intro c hc
      simp only [List.mem_append, List.mem_cons, List.not_mem_nil, or_false] at hc
      rcases hc with (rfl | rfl | rfl | rfl) | hc
      · exact b64Char_mem _ (by omega)
      · exact b64Char_mem _ (by omega)
      · exact b64Char_mem _ (by omega)
      · exact b64Char_mem _ (by omega)
      · exact ih.2 c hc


theorem refreshTokenFn_none (d : TokenDoc) (i : String) (now : Int) :
    refreshTokenFn d i none now = .done none := by
  simp only [refreshTokenFn, ite_self]

theorem refreshStep_none (d₁ : TokenDoc) (now : Int) :
    refreshStep d₁ none now = ([], 0) := by
  unfold refreshStep
  split
  · rw [refreshTokenFn_none]
  · rfl

theorem processOne_none (sso : Option String × Option String) (now : Int) (d : TokenDoc) :
    processOne sso now (d, none) = ((complement sso d).2, 0) := by
  simp [processOne, refreshStep_none]

theorem complement_preserves_expires (sso : Option String × Option String) (d : TokenDoc) :
    ∀ w ∈ (complement sso d).2, w.doc.expires_at = d.expires_at := by
  unfold complement
  split
  · simp
  · split
    · simp
    · split
      · dsimp only
        split
        · intro w hw
          simp only [List.mem_singleton] at hw
          subst hw
          rfl
        · simp
      · simp

/-! ### Claims -/

/-- C1 counterexample: the claim says any parse failure of a present
`expires_at` is reported as refresh-due, but a present truthy non-string
value (e.g. the JSON number 12345) fails the `isinstance(expires_at, str)`
test at token_manager.py line 76 and is reported not-due with the reason
"cannot parse expiry time" (line 81). -/
theorem C1_counterexample :
    shouldRefresh ExpField.nonString 0 = (false, RefreshReason.unparsableType) := rfl

/-- C1 (amended): the staleness check is a pure function of the
`expires_at` field and the current UTC instant; a document lacking (or
with a falsy) `expires_at` is not-due; a parsed expiry with
`remaining = expires_at - now ≤ 0` is refresh-due with a non-negative
overdue second count; `0 < remaining < 300` is refresh-due;
`remaining ≥ 300` is not-due; a parse failure of a present *string*
`expires_at` is refresh-due, while a present *non-string* `expires_at` is
reported not-due. -/
theorem C1_staleness (now t : Int) :
    shouldRefresh .absent now = (false, .noExpiry)
    ∧ shouldRefresh .nonString now = (false, .unparsableType)
    ∧ shouldRefresh .strUnparsable now = (true, .parseError)
    ∧ (t - now ≤ 0 →
        shouldRefresh (.strParsable t) now = (true, .expired (now - t)) ∧ 0 ≤ now - t)
    ∧ (0 < t - now → t - now < 300 →
        shouldRefresh (.strParsable t) now = (true, .expiringSoon (t - now)))
    ∧ (300 ≤ t - now →
        shouldRefresh (.strParsable t) now = (false, .fresh (t - now))) := by
  refine ⟨rfl, rfl, rfl, ?_, ?_, ?_⟩
  · intro h
    constructor
    · simp only [shouldRefresh, if_pos h, neg_sub]
    · omega
  · intro h1 h2
    simp only [shouldRefresh, REFRESH_BUFFER_SECONDS]
    rw [if_neg (by omega), if_pos (by omega)]
  · intro h
    simp only [shouldRefresh, REFRESH_BUFFER_SECONDS]
    rw [if_neg (by omega), if_neg (by omega)]

/-- C1 witness: concrete staleness evaluations through `C1_staleness`. -/
theorem C1_staleness_witness :
    ((400 : Int) - 1000 ≤ 0
      ∧ shouldRefresh (.strParsable 400) 1000 = (true, .expired 600) ∧ 0 ≤ (1000 : Int) - 400)
    ∧ ((0 : Int) < 1100 - 1000 ∧ (1100 : Int) - 1000 < 300
      ∧ shouldRefresh (.strParsable 1100) 1000 = (true, .expiringSoon 100))
    ∧ ((300 : Int) ≤ 1300 - 1000
      ∧ shouldRefresh (.strParsable 1300) 1000 = (false, .fresh 300)) :=
  ⟨⟨by decide, (C1_staleness 1000 400).2.2.2.1 (by decide)⟩,
   ⟨by decide, by decide, (C1_staleness 1000 1100).2.2.2.2.1 (by decide) (by decide)⟩,
   ⟨by decide, (C1_staleness 1000 1300).2.2.2.2.2 (by decide)⟩⟩

/-- C2: for every IdentityCenter credential carrying a `region`, the
refresh attempt POSTs to the endpoint built from that credential's own
stored region — `https://oidc.{region}.amazonaws.com/token` — never a
hardcoded one (token_manager.py lines 115-124 and 180). -/
theorem C2_region_endpoint (d : TokenDoc) (r : String)
    (hr : d.region = some r)
    (hm : d.auth_method.getD "IdC" = "IdC")
    (hrt : truthy d.refresh_token = true)
    (hc : truthy d.client_id = true ∧ truthy d.client_secret = true) :
    refreshRequestUrl d = some ("https://oidc." ++ r ++ ".amazonaws.com/token") := by
  unfold refreshRequestUrl
  rw [if_neg (by simp [hrt]), if_neg (by simp [hm]), if_pos hm, if_pos hc]
  simp [idcEndpoint, hr]

/-- C2 witness: a credential with region `ap-southeast-1` produces a
request to a host containing `ap-southeast-1` and not `us-east-1`, even
though other credentials may use `us-east-1` (the endpoint depends only on
this document). -/
theorem C2_region_endpoint_witness :
    refreshRequestUrl dIdcC2 = some ("https://oidc." ++ "ap-southeast-1" ++ ".amazonaws.com/token")
    ∧ List.IsInfix "ap-southeast-1".data
        "https://oidc.ap-southeast-1.amazonaws.com/token".data
    ∧ ¬ List.IsInfix "us-east-1".data
        "https://oidc.ap-southeast-1.amazonaws.com/token".data :=
  ⟨C2_region_endpoint dIdcC2 "ap-southeast-1" rfl rfl (by decide) (by decide),
   by decide, by decide⟩

/-- C3: refresh is atomic per credential.  With the refresh endpoint
failing (network or parse failure, oracle `none`), `_refresh_token`
returns `False` without saving anything, the credential's iteration of the
batch contributes no refresh write (only possible backfill writes, which
keep `expires_at` unchanged) and count 0, and the remaining credentials of
the batch are processed exactly as they would be alone. -/
theorem C3_refresh_atomic (d : TokenDoc) (ident : String) (now : Int)
    (sso : Option String × Option String)
    (rest : List (TokenDoc × Option RefreshResp)) :
    refreshTokenFn d ident none now = .done none
    ∧ processOne sso now (d, none) = ((complement sso d).2, 0)
    ∧ refreshAll sso now ((d, none) :: rest)
        = ((complement sso d).2 ++ (refreshAll sso now rest).1,
           (refreshAll sso now rest).2)
    ∧ (∀ w ∈ (complement sso d).2, w.doc.expires_at = d.expires_at) := by
  refine ⟨refreshTokenFn_none d ident now, processOne_none sso now d, ?_,
          complement_preserves_expires sso d⟩
  show ((processOne sso now (d, none)).1 ++ _, (processOne sso now (d, none)).2 + _) = _
  rw [processOne_none]
  simp

/-- C3 witness: a due IdC credential whose refresh endpoint fails; the
backfill write that does occur leaves `expires_at` unchanged. -/
theorem C3_refresh_atomic_witness :
    refreshTokenFn dIdcMissC "e@x" none 50 = .done none
    ∧ (⟨"kiro", "e@x", { dIdcMissC with client_id := some "CID", client_secret := some "SEC" }⟩ : SW)
        ∈ (complement (some "CID", some "SEC") dIdcMissC).2
    ∧ ({ dIdcMissC with client_id := some "CID", client_secret := some "SEC" } : TokenDoc).expires_at
        = dIdcMissC.expires_at :=
  ⟨(C3_refresh_atomic dIdcMissC "e@x" 50 (some "CID", some "SEC") []).1,
   by decide,
   (C3_refresh_atomic dIdcMissC "e@x" 50 (some "CID", some "SEC") []).2.2.2
     ⟨"kiro", "e@x", { dIdcMissC with client_id := some "CID", client_secret := some "SEC" }⟩
     (by decide)⟩

/-- C4: a credential without a refresh token is a hard no-op for
`_refresh_token` (returns `False`, no error), and the batch over one
due-and-refreshable, one fresh-and-refreshable and one non-refreshable
credential refreshes exactly one and returns count 1. -/
theorem C4_batch_count (d : TokenDoc) (ident : String) (resp : Option RefreshResp)
    (now : Int) (h : truthy d.refresh_token = false) :
    refreshTokenFn d ident resp now = .done none
    ∧ (refreshAll (none, none) 1000 scenarioC4).2 = 1 := by
  constructor
  · unfold refreshTokenFn
    rw [if_pos h]
  · decide

/-- C4 witness: the no-op conjunct applied to the concrete credential
without a refresh token. -/
theorem C4_batch_count_witness :
    truthy dNoRTC4.refresh_token = false
    ∧ refreshTokenFn dNoRTC4 "nort@x" (some respOkC4) 1000 = .done none :=
  ⟨by decide, (C4_batch_count dNoRTC4 "nort@x" (some respOkC4) 1000 (by decide)).1⟩

/-- C7: store round-trip — saving a document and loading it back by the
same (provider, identifier) returns exactly the saved document, and
loading a (provider, identifier) for which no file exists returns `none`,
never an error. -/
theorem C7_store_roundtrip {α : Type} (s : FileStore α) (p i : String) (d : α) :
    loadAuthFile (saveAuthFile s p i d) p i = some d
    ∧ ((∀ kv ∈ s.files, kv.1 ≠ authFileName p i) → loadAuthFile s p i = none) := by
  constructor
  · simp [loadAuthFile, saveAuthFile]
  · intro h
    have hfind : List.find? (fun kv => decide (kv.1 = authFileName p i)) s.files = none := by
      rw [List.find?_eq_none]
      intro kv hkv
      simpa using h kv hkv
    simp [loadAuthFile, hfind]

/-- C7 witness: round-trip and not-found on concrete stores. -/
theorem C7_store_roundtrip_witness :
    loadAuthFile (saveAuthFile (⟨[]⟩ : FileStore Nat) "kiro" "a@b.com" 5) "kiro" "a@b.com" = some 5
    ∧ loadAuthFile (⟨[]⟩ : FileStore Nat) "kiro" "a@b.com" = none :=
  ⟨(C7_store_roundtrip ⟨[]⟩ "kiro" "a@b.com" 5).1,
   (C7_store_roundtrip (⟨[]⟩ : FileStore Nat) "kiro" "a@b.com" 5).2 (by simp)⟩

/-- C8 evaluates the hosting loop at the failing input: a
`handle_request` call that lapses its 300 s timeout does not terminate the
loop — the loop performs a further serving iteration for every script
suffix, and in the concrete run `[timedOut, request-setting-event]` the
loop serves the second request after the lapsed timeout instead of
stopping with a timeout failure. -/
theorem C8_timeout_not_terminal (rest : List IterOutcome) :
    serveIters (IterOutcome.timedOut :: rest) = 1 + serveIters rest
    ∧ loopStopped [IterOutcome.timedOut] = false
    ∧ serveIters [IterOutcome.timedOut, IterOutcome.request true] = 2 :=
  ⟨rfl, rfl, rfl⟩

/-- C9: an IdentityCenter credential missing `client_id`/`client_secret`
that the external SSO cache matches is backfilled — both fields merged
into the document — and the backfilled document is persisted through the
store as the first write of that credential's batch iteration, before any
write of the refresh attempt (which then operates on the backfilled
document). -/
theorem C9_backfill_before_refresh (d : TokenDoc) (cid csec : String) (now : Int)
    (resp : Option RefreshResp)
    (hm : d.auth_method.getD "IdC" = "IdC")
    (hmiss : ¬ (truthy d.client_id = true ∧ truthy d.client_secret = true))
    (hcid : cid ≠ "") (hcsec : csec ≠ "")
    (hid : docIdentifier d ≠ "") :
    complement (some cid, some csec) d
      = ({ d with client_id := some cid, client_secret := some csec },
         [⟨"kiro", docIdentifier d,
           { d with client_id := some cid, client_secret := some csec }⟩])
    ∧ processOne (some cid, some csec) now (d, resp)
      = (⟨"kiro", docIdentifier d,
            { d with client_id := some cid, client_secret := some csec }⟩
           :: (refreshStep { d with client_id := some cid, client_secret := some csec } resp now).1,
         (refreshStep { d with client_id := some cid, client_secret := some csec } resp now).2) := by
  have hdid : docIdentifier { d with client_id := some cid, client_secret := some csec }
      = docIdentifier d := rfl
  have h3 : truthy (some cid) = true ∧ truthy (some csec) = true := by
    constructor <;> simp [truthy, hcid, hcsec]
  have hc : complement (some cid, some csec) d
      = ({ d with client_id := some cid, client_secret := some csec },
         [⟨"kiro", docIdentifier d,
           { d with client_id := some cid, client_secret := some csec }⟩]) := by
    unfold complement
    rw [if_neg (by simp [hm]), if_neg hmiss, if_pos h3, if_pos (by rw [hdid]; exact hid)]
    rw [hdid]
  refine ⟨hc, ?_⟩
  simp only [processOne, hc]
  simp

/-- C9 witness: concrete backfill of an IdC credential missing both client
fields. -/
theorem C9_backfill_before_refresh_witness :
    complement (some "CID", some "SEC") dIdcMissC
      = ({ dIdcMissC with client_id := some "CID", client_secret := some "SEC" },
         [⟨"kiro", docIdentifier dIdcMissC,
           { dIdcMissC with client_id := some "CID", client_secret := some "SEC" }⟩]) :=
  (C9_backfill_before_refresh dIdcMissC "CID" "SEC" 0 none (by decide) (by decide)
    (by decide) (by decide) (by decide)).1

/-- C5: device-code polling performs at most 60 attempts; the sleep before
the k-th poll call is the starting interval plus 5 seconds for every
`slow_down` among the earlier responses (so `authorization_pending` leaves
the interval unchanged and every poll after a `slow_down` waits the
latest, grown interval); an endpoint answering `authorization_pending` N
times (N < 60) and then succeeding makes the flow succeed on call N+1;
any other provider error terminates with a failure, and 60 exhausted
attempts terminate with a timeout. -/
theorem C5_device_poll (script : Nat → PollResp) (i0 : Nat) :
    (pollToken script i0).2.length ≤ 60
    ∧ (∀ k w, (pollToken script i0).2[k]? = some w → w = i0 + 5 * slowCount script 0 k)
    ∧ (∀ N, N < 60 → (∀ k, k < N → script k = .pending) → script N = .success →
        pollToken script i0 = (.granted, List.replicate (N + 1) i0))
    ∧ (script 0 = .otherError → pollToken script i0 = (.failed, [i0]))
    ∧ ((∀ k, script k = .pending) →
        pollToken script i0 = (.timedOut, List.replicate 60 i0)) := by
  refine ⟨pollAux_length_le script 60 i0 0,
          fun k w h => pollAux_wait script 60 i0 0 k w h,
          fun N hN hp hs => ?_,
          fun h => pollAux_error_first script i0 0 60 h (by omega),
          fun hp => pollAux_all_pending script hp 60 i0 0⟩
  exact pollAux_pending_success script N 60 i0 0 hN
    (fun k hk => by simpa using hp k hk) (by simpa using hs)

/-- C5 witness: with three pendings then success the flow succeeds on the
fourth call with all waits at the original interval; with one slow-down
the second wait is the original interval plus 5. -/
theorem C5_device_poll_witness :
    ((3 : Nat) < 60 ∧ pollToken script5a 7 = (.granted, List.replicate 4 7))
    ∧ ((pollToken script5b 7).2[1]? = some 12
        ∧ (12 : Nat) = 7 + 5 * slowCount script5b 0 1) :=
  ⟨⟨by decide, (C5_device_poll script5a 7).2.2.1 3 (by decide) (by decide) (by decide)⟩,
   ⟨by decide, (C5_device_poll script5b 7).2.1 1 12 (by decide)⟩⟩

/-- C6: the PKCE challenge of a verifier is exactly
`base64url(sha256(verifier))` with trailing `=` padding stripped; the
generated pair is the verifier produced by `token_urlsafe` on the 32
random bytes together with the recomputed challenge of that same verifier
(so recomputation is deterministic/idempotent); for a 32-byte digest the
challenge is 43 URL-safe characters; and the generated verifier is 43
characters (within the required 43-128) drawn from the URL-safe
alphabet. -/
theorem C6_pkce (sha256 : List Nat → List Nat) (verifier : String) (randomBytes : List Nat)
    (hlen : (sha256 (asciiBytes verifier)).length = 32)
    (hbytes : ∀ b ∈ sha256 (asciiBytes verifier), b < 256)
    (hrlen : randomBytes.length = 32)
    (hrbytes : ∀ b ∈ randomBytes, b < 256) :
    pkceChallenge sha256 verifier
        = ⟨stripTrailingEq (base64urlEncode (sha256 (asciiBytes verifier)))⟩
    ∧ generatePkce sha256 randomBytes
        = (tokenUrlsafe randomBytes, pkceChallenge sha256 (tokenUrlsafe randomBytes))
    ∧ (pkceChallenge sha256 verifier).length = 43
    ∧ (∀ c ∈ (pkceChallenge sha256 verifier).data, c ∈ urlSafeB64Chars)
    ∧ (tokenUrlsafe randomBytes).length = 43
    ∧ 43 ≤ (tokenUrlsafe randomBytes).length ∧ (tokenUrlsafe randomBytes).length ≤ 128
    ∧ (∀ c ∈ (tokenUrlsafe randomBytes).data, c ∈ urlSafeB64Chars) := by
  have hdig := strip_encode_two (sha256 (asciiBytes verifier)) (by rw [hlen]) hbytes
  have hdiglen := base64urlEncode_length (sha256 (asciiBytes verifier))
  have hrnd := strip_encode_two randomBytes (by rw [hrlen]) hrbytes
  have hrndlen := base64urlEncode_length randomBytes
  have hchal : (pkceChallenge sha256 verifier).length = 43 := by
    show (stripTrailingEq (base64urlEncode (sha256 (asciiBytes verifier)))).length = 43
    have h1 := hdig.1
    rw [hlen] at hdiglen
    omega
  have hver : (tokenUrlsafe randomBytes).length = 43 := by
    show (stripTrailingEq (base64urlEncode randomBytes)).length = 43
    have h1 := hrnd.1
    rw [hrlen] at hrndlen
    omega
  exact ⟨rfl, rfl, hchal, fun c hc => hdig.2 c hc, hver, by omega, by omega,
         fun c hc => hrnd.2 c hc⟩

/-- C6 witness: concrete digest function and random bytes. -/
theorem C6_pkce_witness :
    ((fun _ : List Nat => List.range 32) (asciiBytes "v")).length = 32
    ∧ (∀ b ∈ (fun _ : List Nat => List.range 32) (asciiBytes "v"), b < 256)
    ∧ (List.range 32).length = 32
    ∧ (∀ b ∈ List.range 32, b < 256)
    ∧ (pkceChallenge (fun _ => List.range 32) "v").length = 43
    ∧ (tokenUrlsafe (List.range 32)).length = 43 :=
  ⟨by decide, by decide, by decide, by decide,
   (C6_pkce (fun _ => List.range 32) "v" (List.range 32)
     (by decide) (by decide) (by decide) (by decide)).2.2.1,
   (C6_pkce (fun _ => List.range 32) "v" (List.range 32)
     (by decide) (by decide) (by decide) (by decide)).2.2.2.2.1⟩

/-- C10: the store's identifier transform (every `@` and `.` mapped to
`_`) is not injective — `a@b.com` and `a.b_com` are distinct identifiers
mapping to the same file name, so saving under the second overwrites the
live document of the first, and a subsequent load by either identifier
returns the last-saved document. -/
theorem C10_key_collision {α : Type} (p : String) (s : FileStore α) (d1 d2 : α) :
    (("a@b.com" : String) == "a.b_com") = false
    ∧ authFileName p "a@b.com" = authFileName p "a.b_com"
    ∧ loadAuthFile (saveAuthFile (saveAuthFile s p "a@b.com" d1) p "a.b_com" d2)
        p "a@b.com" = some d2
    ∧ loadAuthFile (saveAuthFile (saveAuthFile s p "a@b.com" d1) p "a.b_com" d2)
        p "a.b_com" = some d2 := by
  have hsafe : safeId "a@b.com" = safeId "a.b_com" := by decide
  have hfn : authFileName p "a@b.com" = authFileName p "a.b_com" := by
    unfold authFileName
    rw [hsafe]
  refine ⟨by decide, hfn, ?_, ?_⟩
  · simp [loadAuthFile, saveAuthFile, hfn]
  · simp [loadAuthFile, saveAuthFile]

end Quotio
